import Mathlib

/-!
# include/gpu/vk/GrVkDefines.h

A verification development for the Vulkan capability gate of Skia,
`include/gpu/vk/GrVkDefines.h`.  The header consists of preprocessor
directives only:

     9   ifndef GrVkDefines_DEFINED
    10   define GrVkDefines_DEFINED
    12   include "SkTypes.h"
    14   ifdef SK_VULKAN
    16   ifndef VULKAN_H_
    17   include "../../../third_party/vulkan/SkiaVulkan.h"
    18   endif
    20   endif
    22   endif

(source line number, then the directive without its leading hash sign).

The directives are embedded as state transformers on a preprocessor state
(the set of defined names and the list of files the header has pulled in).
The two headers it includes are not part of this file: what processing them
does to the set of defined names, and whether they can be found at all, is a
parameter (`Env`).
-/

namespace GrVk

/-- Preprocessor state of one compilation unit, as far as this header can
observe or change it: the names that are currently `#define`d, and the log of
the files pulled in so far by the `#include` directives processed, oldest
first. -/
structure PPState where
  defined : Finset String
  includes : List String

instance : DecidableEq PPState := fun a b =>
  decidable_of_iff (a.defined = b.defined ∧ a.includes = b.includes)
    (by cases a; cases b; simp)

/-- The files outside this header.  `env path d` is the result of processing
the file found for `#include "path"` when the defined names are `d`: an error
of the build tool (file missing or malformed), or the names defined
afterwards.  The file may define and undefine names freely. -/
abbrev Env (ε : Type) := String → Finset String → Except ε (Finset String)

/-- The directive `#define name` (the header only defines names with an empty body). -/
def ppDefine (name : String) (s : PPState) : PPState :=
  { s with defined := insert name s.defined }

/-- The directive `#include "path"`: the file is processed in the current state;
when that fails the error is passed on, otherwise the file is recorded. -/
def ppInclude {ε : Type} (env : Env ε) (path : String) (s : PPState) : Except ε PPState :=
  match env path s.defined with
  | .error e => .error e
  | .ok d => .ok { defined := d, includes := s.includes ++ [path] }

/-- The group `#ifdef name` ... `#endif` around `body`. -/
def ifdef {ε : Type} (name : String) (body : PPState → Except ε PPState)
    (s : PPState) : Except ε PPState :=
  if name ∈ s.defined then body s else .ok s

/-- The group `#ifndef name` ... `#endif` around `body`. -/
def ifndef {ε : Type} (name : String) (body : PPState → Except ε PPState)
    (s : PPState) : Except ε PPState :=
  if name ∈ s.defined then .ok s else body s

/-- Processing `GrVkDefines.h` once, directive by directive (lines 9 to 22). -/
def GrVkDefines {ε : Type} (env : Env ε) : PPState → Except ε PPState :=
  ifndef "GrVkDefines_DEFINED" fun s =>
    ppInclude env "SkTypes.h" (ppDefine "GrVkDefines_DEFINED" s) >>=
      ifdef "SK_VULKAN"
        ( ifndef "VULKAN_H_"
          (ppInclude env "../../../third_party/vulkan/SkiaVulkan.h"))

/-- Errors of the build tool in the sample environments. -/
inductive PPError where
  | fileNotFound (path : String)
deriving DecidableEq

instance {ε α : Type} [DecidableEq ε] [DecidableEq α] : DecidableEq (Except ε α)
  | .ok a, .ok b => decidable_of_iff (a = b) (by simp)
  | .error a, .error b => decidable_of_iff (a = b) (by simp)
  | .ok _, .error _ => isFalse (by simp)
  | .error _, .ok _ => isFalse (by simp)

/-- A sample environment: `SkTypes.h` defines the names `skTypes`;
`SkiaVulkan.h`, when `vulkan` gives its names, defines those, and is missing
otherwise; no other file exists. -/
def sampleEnv (skTypes : Finset String) (vulkan : Option (Finset String)) : Env PPError :=
  fun path d =>
    if path = "SkTypes.h" then .ok (d ∪ skTypes)
    else if path = "../../../third_party/vulkan/SkiaVulkan.h" then
      match vulkan with
      | some v => .ok (d ∪ v)
      | none => .error (.fileNotFound path)
    else .error (.fileNotFound path)

/-- The files pulled in between the state `s` and a later state `s1`. -/
def emitted (s s1 : PPState) : List String :=
  s1.includes.drop s.includes.length

/-- The names the file `path` adds when it is processed with the names `d` defined. -/
def addedBy {ε : Type} (env : Env ε) (path : String) (d : Finset String) : Finset String :=
  match env path d with
  | .ok d1 => d1 \ d
  | .error _ => ∅

theorem emitted_append (s : PPState) (d : Finset String) (l : List String) :
    emitted s ⟨d, s.includes ++ l⟩ = l := by
  simp [emitted]

theorem emitted_self (s : PPState) : emitted s s = [] := by
  simp [emitted]

/-- Repeated inclusion: the guard is defined and nothing is processed. -/
theorem run_guarded {ε : Type} (env : Env ε) (s : PPState)
    (hguard : "GrVkDefines_DEFINED" ∈ s.defined) :
    GrVkDefines env s = .ok s := by
  simp [GrVkDefines, ifndef, hguard]

/-- First inclusion, `SkTypes.h` fails. -/
theorem run_skTypes_error {ε : Type} (env : Env ε) (s : PPState) (e : ε)
    (hguard : "GrVkDefines_DEFINED" ∉ s.defined)
    (hsk : env "SkTypes.h" (insert "GrVkDefines_DEFINED" s.defined) = .error e) :
    GrVkDefines env s = .error e := by
  simp [GrVkDefines, ifndef, hguard, ppInclude, ppDefine, hsk, bind, Except.bind]

/-- First inclusion, the inner include is not reached. -/
theorem run_off {ε : Type} (env : Env ε) (s : PPState) (d1 : Finset String)
    (hguard : "GrVkDefines_DEFINED" ∉ s.defined)
    (hsk : env "SkTypes.h" (insert "GrVkDefines_DEFINED" s.defined) = .ok d1)
    (hoff : ¬ ("SK_VULKAN" ∈ d1 ∧ "VULKAN_H_" ∉ d1)) :
    GrVkDefines env s = .ok ⟨d1, s.includes ++ ["SkTypes.h"]⟩ := by
  by_cases hflag : "SK_VULKAN" ∈ d1
  · have hvk : "VULKAN_H_" ∈ d1 := by
      by_contra h
      exact hoff ⟨hflag, h⟩
    simp [GrVkDefines, ifndef, ifdef, hguard, ppInclude, ppDefine, hsk, bind, Except.bind,
      hflag, hvk]
  · simp [GrVkDefines, ifndef, ifdef, hguard, ppInclude, ppDefine, hsk, bind, Except.bind,
      hflag]

/-- First inclusion, the inner include is reached. -/
theorem run_on {ε : Type} (env : Env ε) (s : PPState) (d1 : Finset String)
    (hguard : "GrVkDefines_DEFINED" ∉ s.defined)
    (hsk : env "SkTypes.h" (insert "GrVkDefines_DEFINED" s.defined) = .ok d1)
    (hflag : "SK_VULKAN" ∈ d1) (hvk : "VULKAN_H_" ∉ d1) :
    GrVkDefines env s =
      ppInclude env "../../../third_party/vulkan/SkiaVulkan.h"
        ⟨d1, s.includes ++ ["SkTypes.h"]⟩ := by
  simp [GrVkDefines, ifndef, ifdef, hguard, ppInclude, ppDefine, hsk, bind, Except.bind,
    hflag, hvk]

theorem run_on_ok {ε : Type} (env : Env ε) (s : PPState) (d1 d2 : Finset String)
    (hguard : "GrVkDefines_DEFINED" ∉ s.defined)
    (hsk : env "SkTypes.h" (insert "GrVkDefines_DEFINED" s.defined) = .ok d1)
    (hflag : "SK_VULKAN" ∈ d1) (hvk : "VULKAN_H_" ∉ d1)
    (hres : env "../../../third_party/vulkan/SkiaVulkan.h" d1 = .ok d2) :
    GrVkDefines env s =
      .ok ⟨d2, s.includes ++ ["SkTypes.h", "../../../third_party/vulkan/SkiaVulkan.h"]⟩ := by
  rw [run_on env s d1 hguard hsk hflag hvk]
  simp [ppInclude, hres]

theorem run_on_error {ε : Type} (env : Env ε) (s : PPState) (d1 : Finset String) (e : ε)
    (hguard : "GrVkDefines_DEFINED" ∉ s.defined)
    (hsk : env "SkTypes.h" (insert "GrVkDefines_DEFINED" s.defined) = .ok d1)
    (hflag : "SK_VULKAN" ∈ d1) (hvk : "VULKAN_H_" ∉ d1)
    (hres : env "../../../third_party/vulkan/SkiaVulkan.h" d1 = .error e) :
    GrVkDefines env s = .error e := by
  rw [run_on env s d1 hguard hsk hflag hvk]
  simp [ppInclude, hres]

/-- Every successful run took one of three paths. -/
theorem run_ok_cases {ε : Type} (env : Env ε) (s s1 : PPState)
    (hrun : GrVkDefines env s = .ok s1) :
    ("GrVkDefines_DEFINED" ∈ s.defined ∧ s1 = s) ∨
    ("GrVkDefines_DEFINED" ∉ s.defined ∧ ∃ d1,
      env "SkTypes.h" (insert "GrVkDefines_DEFINED" s.defined) = .ok d1 ∧
      ¬ ("SK_VULKAN" ∈ d1 ∧ "VULKAN_H_" ∉ d1) ∧
      s1 = ⟨d1, s.includes ++ ["SkTypes.h"]⟩) ∨
    ("GrVkDefines_DEFINED" ∉ s.defined ∧ ∃ d1 d2,
      env "SkTypes.h" (insert "GrVkDefines_DEFINED" s.defined) = .ok d1 ∧
      "SK_VULKAN" ∈ d1 ∧ "VULKAN_H_" ∉ d1 ∧
      env "../../../third_party/vulkan/SkiaVulkan.h" d1 = .ok d2 ∧
      s1 = ⟨d2, s.includes ++ ["SkTypes.h", "../../../third_party/vulkan/SkiaVulkan.h"]⟩) := by
  by_cases hguard : "GrVkDefines_DEFINED" ∈ s.defined
  · left
    rw [run_guarded env s hguard] at hrun
    exact ⟨hguard, (Except.ok.inj hrun).symm⟩
  · right
    cases hsk : env "SkTypes.h" (insert "GrVkDefines_DEFINED" s.defined) with
    | error e =>
      rw [run_skTypes_error env s e hguard hsk] at hrun
      cases hrun
    | ok d1 =>
      by_cases hon : "SK_VULKAN" ∈ d1 ∧ "VULKAN_H_" ∉ d1
      · right
        cases hres : env "../../../third_party/vulkan/SkiaVulkan.h" d1 with
        | error e =>
          rw [run_on_error env s d1 e hguard hsk hon.1 hon.2 hres] at hrun
          cases hrun
        | ok d2 =>
          rw [run_on_ok env s d1 d2 hguard hsk hon.1 hon.2 hres] at hrun
          exact ⟨hguard, d1, d2, rfl, hon.1, hon.2, hres, (Except.ok.inj hrun).symm⟩
      · left
        rw [run_off env s d1 hguard hsk hon] at hrun
        exact ⟨hguard, d1, rfl, hon, (Except.ok.inj hrun).symm⟩

/-- C1, as stated, fails: with no name defined at all (so `SK_VULKAN` is off), a
`SkTypes.h` that defines nothing and no Vulkan header, the inclusion pulls in
`SkTypes.h` and defines `GrVkDefines_DEFINED`; it is not a no-op.  And when
`SkTypes.h` is the file that defines `SK_VULKAN`, the Vulkan header is pulled
in as well although the flag was off before the inclusion. -/
theorem C1_counterexample :
    "SK_VULKAN" ∉ (⟨∅, []⟩ : PPState).defined ∧
    GrVkDefines (sampleEnv ∅ none) ⟨∅, []⟩ = .ok ⟨{"GrVkDefines_DEFINED"}, ["SkTypes.h"]⟩ ∧
    emitted ⟨∅, []⟩ ⟨{"GrVkDefines_DEFINED"}, ["SkTypes.h"]⟩ ≠ [] ∧
    ({"GrVkDefines_DEFINED"} : Finset String) ≠ ∅ ∧
    GrVkDefines (sampleEnv {"SK_VULKAN"} (some {"VULKAN_H_"})) ⟨∅, []⟩ =
      .ok ⟨{"GrVkDefines_DEFINED", "SK_VULKAN", "VULKAN_H_"},
           ["SkTypes.h", "../../../third_party/vulkan/SkiaVulkan.h"]⟩ := by
  decide

/-- C1, amended: when `SK_VULKAN` is not defined at the point where the header
tests it (after `SkTypes.h`), a first inclusion pulls in `SkTypes.h` and nothing
else, and leaves defined exactly what `SkTypes.h` leaves when started from the
old names plus `GrVkDefines_DEFINED`; a repeated inclusion changes nothing. -/
theorem C1_flag_off (ε : Type) (env : Env ε) (s : PPState) (d1 : Finset String)
    (hsk : env "SkTypes.h" (insert "GrVkDefines_DEFINED" s.defined) = .ok d1)
    (hflag : "SK_VULKAN" ∉ d1) :
    GrVkDefines env s =
      .ok (if "GrVkDefines_DEFINED" ∈ s.defined then s
           else ⟨d1, s.includes ++ ["SkTypes.h"]⟩) := by
  by_cases hguard : "GrVkDefines_DEFINED" ∈ s.defined
  · rw [if_pos hguard]
    exact run_guarded env s hguard
  · rw [if_neg hguard]
    exact run_off env s d1 hguard hsk (fun h => hflag h.1)

/-- A unit built for another backend: `SK_GL` only, first inclusion. -/
theorem C1_flag_off_witness :
    sampleEnv {"SkTypes_DEFINED"} (some {"VULKAN_H_"}) "SkTypes.h"
        (insert "GrVkDefines_DEFINED" (⟨{"SK_GL"}, []⟩ : PPState).defined)
      = .ok {"SK_GL", "GrVkDefines_DEFINED", "SkTypes_DEFINED"} ∧
    "SK_VULKAN" ∉ ({"SK_GL", "GrVkDefines_DEFINED", "SkTypes_DEFINED"} : Finset String) ∧
    GrVkDefines (sampleEnv {"SkTypes_DEFINED"} (some {"VULKAN_H_"})) ⟨{"SK_GL"}, []⟩ =
      .ok (if "GrVkDefines_DEFINED" ∈ (⟨{"SK_GL"}, []⟩ : PPState).defined then ⟨{"SK_GL"}, []⟩
           else ⟨{"SK_GL", "GrVkDefines_DEFINED", "SkTypes_DEFINED"},
                 (⟨{"SK_GL"}, []⟩ : PPState).includes ++ ["SkTypes.h"]⟩) :=
  ⟨by decide, by decide,
    C1_flag_off PPError (sampleEnv {"SkTypes_DEFINED"} (some {"VULKAN_H_"})) ⟨{"SK_GL"}, []⟩
      {"SK_GL", "GrVkDefines_DEFINED", "SkTypes_DEFINED"} (by decide) (by decide)⟩

/-! ## C2: the flag is on -/

/-- C2, as stated, fails twice over: with `SK_VULKAN` defined, a first inclusion
pulls in `SkTypes.h` before the Vulkan header, so two files and not one; and
with `VULKAN_H_` defined as well it pulls in `SkTypes.h` only. -/
theorem C2_counterexample :
    "SK_VULKAN" ∈ (⟨{"SK_VULKAN"}, []⟩ : PPState).defined ∧
    GrVkDefines (sampleEnv ∅ (some {"VULKAN_H_"})) ⟨{"SK_VULKAN"}, []⟩ =
      .ok ⟨{"SK_VULKAN", "GrVkDefines_DEFINED", "VULKAN_H_"},
           ["SkTypes.h", "../../../third_party/vulkan/SkiaVulkan.h"]⟩ ∧
    ["SkTypes.h", "../../../third_party/vulkan/SkiaVulkan.h"] ≠
      ["../../../third_party/vulkan/SkiaVulkan.h"] ∧
    "SK_VULKAN" ∈ (⟨{"SK_VULKAN", "VULKAN_H_"}, []⟩ : PPState).defined ∧
    GrVkDefines (sampleEnv ∅ (some {"VULKAN_H_"})) ⟨{"SK_VULKAN", "VULKAN_H_"}, []⟩ =
      .ok ⟨{"SK_VULKAN", "VULKAN_H_", "GrVkDefines_DEFINED"}, ["SkTypes.h"]⟩ ∧
    ["SkTypes.h"] ≠ ["../../../third_party/vulkan/SkiaVulkan.h"] := by
  decide

/-- C2, amended: on a first inclusion where, after `SkTypes.h`, `SK_VULKAN` is
defined and `VULKAN_H_` is not, the files pulled in are exactly `SkTypes.h`
followed by the one header at the fixed path
`../../../third_party/vulkan/SkiaVulkan.h`, whatever else is defined, and the
names defined afterwards are those that header leaves. -/
theorem C2_flag_on (ε : Type) (env : Env ε) (s : PPState) (d1 d2 : Finset String)
    (hguard : "GrVkDefines_DEFINED" ∉ s.defined)
    (hsk : env "SkTypes.h" (insert "GrVkDefines_DEFINED" s.defined) = .ok d1)
    (hflag : "SK_VULKAN" ∈ d1) (hvk : "VULKAN_H_" ∉ d1)
    (hres : env "../../../third_party/vulkan/SkiaVulkan.h" d1 = .ok d2) :
    GrVkDefines env s =
      .ok ⟨d2, s.includes ++ ["SkTypes.h", "../../../third_party/vulkan/SkiaVulkan.h"]⟩ ∧
    ∀ s1, GrVkDefines env s = .ok s1 →
      emitted s s1 = ["SkTypes.h", "../../../third_party/vulkan/SkiaVulkan.h"] := by
  have h := run_on_ok env s d1 d2 hguard hsk hflag hvk hres
  refine ⟨h, ?_⟩
  intro s1 h1
  rw [h] at h1
  rw [← Except.ok.inj h1]
  exact emitted_append s d2 _

/-- A unit with `SK_VULKAN` set that has already pulled in `SkCanvas.h`. -/
theorem C2_flag_on_witness :
    "GrVkDefines_DEFINED" ∉ (⟨{"SK_VULKAN"}, ["SkCanvas.h"]⟩ : PPState).defined ∧
    sampleEnv {"SkTypes_DEFINED"} (some {"VULKAN_H_"}) "SkTypes.h"
        (insert "GrVkDefines_DEFINED" (⟨{"SK_VULKAN"}, ["SkCanvas.h"]⟩ : PPState).defined)
      = .ok {"SK_VULKAN", "GrVkDefines_DEFINED", "SkTypes_DEFINED"} ∧
    "SK_VULKAN" ∈ ({"SK_VULKAN", "GrVkDefines_DEFINED", "SkTypes_DEFINED"} : Finset String) ∧
    "VULKAN_H_" ∉ ({"SK_VULKAN", "GrVkDefines_DEFINED", "SkTypes_DEFINED"} : Finset String) ∧
    sampleEnv {"SkTypes_DEFINED"} (some {"VULKAN_H_"})
        "../../../third_party/vulkan/SkiaVulkan.h"
        {"SK_VULKAN", "GrVkDefines_DEFINED", "SkTypes_DEFINED"}
      = .ok {"SK_VULKAN", "GrVkDefines_DEFINED", "SkTypes_DEFINED", "VULKAN_H_"} ∧
    GrVkDefines (sampleEnv {"SkTypes_DEFINED"} (some {"VULKAN_H_"}))
        ⟨{"SK_VULKAN"}, ["SkCanvas.h"]⟩ =
      .ok ⟨{"SK_VULKAN", "GrVkDefines_DEFINED", "SkTypes_DEFINED", "VULKAN_H_"},
           (⟨{"SK_VULKAN"}, ["SkCanvas.h"]⟩ : PPState).includes ++
             ["SkTypes.h", "../../../third_party/vulkan/SkiaVulkan.h"]⟩ :=
  ⟨by decide, by decide, by decide, by decide, by decide,
    (C2_flag_on PPError (sampleEnv {"SkTypes_DEFINED"} (some {"VULKAN_H_"}))
      ⟨{"SK_VULKAN"}, ["SkCanvas.h"]⟩
      {"SK_VULKAN", "GrVkDefines_DEFINED", "SkTypes_DEFINED"}
      {"SK_VULKAN", "GrVkDefines_DEFINED", "SkTypes_DEFINED", "VULKAN_H_"}
      (by decide) (by decide) (by decide) (by decide) (by decide)).1⟩

/-! ## C3: repeated inclusion -/

/-- C4, as stated, fails: starting with only `SK_VULKAN` defined and with both
included files defining nothing (each returns the names it was given), the
name `GrVkDefines_DEFINED` is defined afterwards; it was not defined before and
no included file defined it, so the header's own `#define` did. -/
theorem C4_counterexample :
    GrVkDefines (sampleEnv ∅ (some ∅)) ⟨{"SK_VULKAN"}, []⟩ =
      .ok ⟨{"SK_VULKAN", "GrVkDefines_DEFINED"},
           ["SkTypes.h", "../../../third_party/vulkan/SkiaVulkan.h"]⟩ ∧
    "GrVkDefines_DEFINED" ∈ ({"SK_VULKAN", "GrVkDefines_DEFINED"} : Finset String) ∧
    "GrVkDefines_DEFINED" ∉ (⟨{"SK_VULKAN"}, []⟩ : PPState).defined ∧
    addedBy (sampleEnv ∅ (some ∅)) "SkTypes.h" {"SK_VULKAN", "GrVkDefines_DEFINED"} = ∅ ∧
    addedBy (sampleEnv ∅ (some ∅)) "../../../third_party/vulkan/SkiaVulkan.h"
      {"SK_VULKAN", "GrVkDefines_DEFINED"} = ∅ := by
  decide

/-- C4, amended: the header defines one name itself, its include guard
`GrVkDefines_DEFINED`.  Every name defined after a successful inclusion was
defined before it, or is `GrVkDefines_DEFINED`, or was added by `SkTypes.h`
(pulled in, and processed with the old names plus the guard defined), or was
added by the Vulkan header (pulled in, and processed in the state `SkTypes.h`
left). -/
theorem C4_names_defined (ε : Type) (env : Env ε) (s s1 : PPState) (n : String)
    (hrun : GrVkDefines env s = .ok s1) (hn : n ∈ s1.defined) :
    n ∈ s.defined ∨ n = "GrVkDefines_DEFINED" ∨
    ("SkTypes.h" ∈ emitted s s1 ∧
      n ∈ addedBy env "SkTypes.h" (insert "GrVkDefines_DEFINED" s.defined)) ∨
    ("../../../third_party/vulkan/SkiaVulkan.h" ∈ emitted s s1 ∧
      ∃ d1, env "SkTypes.h" (insert "GrVkDefines_DEFINED" s.defined) = .ok d1 ∧
        n ∈ addedBy env "../../../third_party/vulkan/SkiaVulkan.h" d1) := by
  have hfirst : ∀ d1, env "SkTypes.h" (insert "GrVkDefines_DEFINED" s.defined) = .ok d1 →
      n ∈ d1 → n ∈ s.defined ∨ n = "GrVkDefines_DEFINED" ∨
        n ∈ addedBy env "SkTypes.h" (insert "GrVkDefines_DEFINED" s.defined) := by
    intro d1 hsk hd1
    by_cases hold : n ∈ insert "GrVkDefines_DEFINED" s.defined
    · rcases Finset.mem_insert.mp hold with h | h
      · exact Or.inr (Or.inl h)
      · exact Or.inl h
    · right; right
      simp only [addedBy, hsk]
      exact Finset.mem_sdiff.mpr ⟨hd1, hold⟩
  rcases run_ok_cases env s s1 hrun with ⟨_, rfl⟩ | ⟨_, d1, hsk, _, rfl⟩ |
    ⟨_, d1, d2, hsk, _, _, hres, rfl⟩
  · exact Or.inl hn
  · rcases hfirst d1 hsk hn with h | h | h
    · exact Or.inl h
    · exact Or.inr (Or.inl h)
    · refine Or.inr (Or.inr (Or.inl ⟨?_, h⟩))
      rw [emitted_append]
      simp
  · by_cases hd1 : n ∈ d1
    · rcases hfirst d1 hsk hd1 with h | h | h
      · exact Or.inl h
      · exact Or.inr (Or.inl h)
      · refine Or.inr (Or.inr (Or.inl ⟨?_, h⟩))
        rw [emitted_append]
        simp
    · refine Or.inr (Or.inr (Or.inr ⟨?_, d1, hsk, ?_⟩))
      · rw [emitted_append]
        simp
      · simp only [addedBy, hres]
        exact Finset.mem_sdiff.mpr ⟨hn, hd1⟩

/-- The name `VULKAN_H_` after an inclusion with the flag on: added by the Vulkan header. -/
theorem C4_names_defined_witness :
    GrVkDefines (sampleEnv {"SkTypes_DEFINED"} (some {"VULKAN_H_"})) ⟨{"SK_VULKAN"}, []⟩ =
      .ok ⟨{"SK_VULKAN", "GrVkDefines_DEFINED", "SkTypes_DEFINED", "VULKAN_H_"},
           ["SkTypes.h", "../../../third_party/vulkan/SkiaVulkan.h"]⟩ ∧
    "VULKAN_H_" ∈ (⟨{"SK_VULKAN", "GrVkDefines_DEFINED", "SkTypes_DEFINED", "VULKAN_H_"},
      ["SkTypes.h", "../../../third_party/vulkan/SkiaVulkan.h"]⟩ : PPState).defined ∧
    ("VULKAN_H_" ∈ (⟨{"SK_VULKAN"}, []⟩ : PPState).defined ∨
     "VULKAN_H_" = "GrVkDefines_DEFINED" ∨
     ("SkTypes.h" ∈ emitted ⟨{"SK_VULKAN"}, []⟩
        ⟨{"SK_VULKAN", "GrVkDefines_DEFINED", "SkTypes_DEFINED", "VULKAN_H_"},
         ["SkTypes.h", "../../../third_party/vulkan/SkiaVulkan.h"]⟩ ∧
      "VULKAN_H_" ∈ addedBy (sampleEnv {"SkTypes_DEFINED"} (some {"VULKAN_H_"})) "SkTypes.h"
        (insert "GrVkDefines_DEFINED" (⟨{"SK_VULKAN"}, []⟩ : PPState).defined)) ∨
     ("../../../third_party/vulkan/SkiaVulkan.h" ∈ emitted ⟨{"SK_VULKAN"}, []⟩
        ⟨{"SK_VULKAN", "GrVkDefines_DEFINED", "SkTypes_DEFINED", "VULKAN_H_"},
         ["SkTypes.h", "../../../third_party/vulkan/SkiaVulkan.h"]⟩ ∧
      ∃ d1, sampleEnv {"SkTypes_DEFINED"} (some {"VULKAN_H_"}) "SkTypes.h"
          (insert "GrVkDefines_DEFINED" (⟨{"SK_VULKAN"}, []⟩ : PPState).defined) = .ok d1 ∧
        "VULKAN_H_" ∈ addedBy (sampleEnv {"SkTypes_DEFINED"} (some {"VULKAN_H_"}))
          "../../../third_party/vulkan/SkiaVulkan.h" d1)) :=
  ⟨by decide, by decide,
    C4_names_defined PPError (sampleEnv {"SkTypes_DEFINED"} (some {"VULKAN_H_"}))
      ⟨{"SK_VULKAN"}, []⟩
      ⟨{"SK_VULKAN", "GrVkDefines_DEFINED", "SkTypes_DEFINED", "VULKAN_H_"},
       ["SkTypes.h", "../../../third_party/vulkan/SkiaVulkan.h"]⟩
      "VULKAN_H_" (by decide) (by decide)⟩

/-! ## C5: flag off, the Vulkan header is never pulled in -/

/-- C5: when `SK_VULKAN` is not defined at the point where the header tests it
(in the state `SkTypes.h` leaves), an inclusion never pulls in
`third_party/vulkan/SkiaVulkan.h`; and the outcome is the same whatever that
file is (present, missing, or with other declarations), so none of its
declarations is made visible. -/
theorem C5_flag_off_no_vulkan (ε : Type) (env : Env ε) (s s1 : PPState)
    (hflag : ∀ d1, env "SkTypes.h" (insert "GrVkDefines_DEFINED" s.defined) = .ok d1 →
      "SK_VULKAN" ∉ d1)
    (hrun : GrVkDefines env s = .ok s1) :
    "../../../third_party/vulkan/SkiaVulkan.h" ∉ emitted s s1 ∧
    ∀ env1 : Env ε, (∀ d, env1 "SkTypes.h" d = env "SkTypes.h" d) →
      GrVkDefines env1 s = .ok s1 := by
  rcases run_ok_cases env s s1 hrun with ⟨hg, rfl⟩ | ⟨hg, d1, hsk, hoff, rfl⟩ |
    ⟨_, d1, d2, hsk, hon, _, _, rfl⟩
  · refine ⟨?_, ?_⟩
    · rw [emitted_self]
      simp
    · intro env1 _
      exact run_guarded env1 s1 hg
  · refine ⟨?_, ?_⟩
    · rw [emitted_append]
      decide
    · intro env1 hsame
      exact run_off env1 s d1 hg (by rw [hsame]; exact hsk) hoff
  · exact absurd hon (hflag d1 hsk)

/-- Flag off and no Vulkan header on disk: the inclusion succeeds with `SkTypes.h` only. -/
theorem C5_flag_off_no_vulkan_witness :
    (∀ d1, sampleEnv {"SkTypes_DEFINED"} none "SkTypes.h"
        (insert "GrVkDefines_DEFINED" (⟨{"SK_GL"}, []⟩ : PPState).defined) = .ok d1 →
      "SK_VULKAN" ∉ d1) ∧
    GrVkDefines (sampleEnv {"SkTypes_DEFINED"} none) ⟨{"SK_GL"}, []⟩ =
      .ok ⟨{"SK_GL", "GrVkDefines_DEFINED", "SkTypes_DEFINED"}, ["SkTypes.h"]⟩ ∧
    "../../../third_party/vulkan/SkiaVulkan.h" ∉
      emitted ⟨{"SK_GL"}, []⟩
        ⟨{"SK_GL", "GrVkDefines_DEFINED", "SkTypes_DEFINED"}, ["SkTypes.h"]⟩ :=
  have hflag : ∀ d1, sampleEnv {"SkTypes_DEFINED"} none "SkTypes.h"
        (insert "GrVkDefines_DEFINED" (⟨{"SK_GL"}, []⟩ : PPState).defined) = .ok d1 →
      "SK_VULKAN" ∉ d1 := by
    intro d1 h
    have h1 : d1 = ({"SK_GL", "GrVkDefines_DEFINED", "SkTypes_DEFINED"} : Finset String) := by
      have h2 : sampleEnv {"SkTypes_DEFINED"} none "SkTypes.h"
          (insert "GrVkDefines_DEFINED" (⟨{"SK_GL"}, []⟩ : PPState).defined)
          = .ok {"SK_GL", "GrVkDefines_DEFINED", "SkTypes_DEFINED"} := by decide
      rw [h2] at h
      exact (Except.ok.inj h).symm
    rw [h1]
    decide
  ⟨hflag, by decide,
    (C5_flag_off_no_vulkan PPError (sampleEnv {"SkTypes_DEFINED"} none) ⟨{"SK_GL"}, []⟩
      ⟨{"SK_GL", "GrVkDefines_DEFINED", "SkTypes_DEFINED"}, ["SkTypes.h"]⟩
      hflag (by decide)).1⟩

/-! ## C6: the Vulkan header cannot be resolved -/

/-- C6: on a first inclusion that reaches the include of the Vulkan header
(after `SkTypes.h`, `SK_VULKAN` is defined and `VULKAN_H_` is not), when
resolving that header fails with an error, the inclusion of `GrVkDefines.h`
fails with the same error, and there is no state it succeeds with. -/
theorem C6_missing_header (ε : Type) (env : Env ε) (s : PPState) (d1 : Finset String) (e : ε)
    (hguard : "GrVkDefines_DEFINED" ∉ s.defined)
    (hsk : env "SkTypes.h" (insert "GrVkDefines_DEFINED" s.defined) = .ok d1)
    (hflag : "SK_VULKAN" ∈ d1) (hvk : "VULKAN_H_" ∉ d1)
    (hmiss : env "../../../third_party/vulkan/SkiaVulkan.h" d1 = .error e) :
    GrVkDefines env s = .error e ∧ ∀ s1, GrVkDefines env s ≠ .ok s1 := by
  have h := run_on_error env s d1 e hguard hsk hflag hvk hmiss
  refine ⟨h, ?_⟩
  intro s1 h1
  rw [h] at h1
  cases h1

/-- Flag on and no Vulkan header on disk: the inclusion fails with the error of the resolution. -/
theorem C6_missing_header_witness :
    "GrVkDefines_DEFINED" ∉ (⟨{"SK_VULKAN"}, []⟩ : PPState).defined ∧
    sampleEnv {"SkTypes_DEFINED"} none "SkTypes.h"
        (insert "GrVkDefines_DEFINED" (⟨{"SK_VULKAN"}, []⟩ : PPState).defined)
      = .ok {"SK_VULKAN", "GrVkDefines_DEFINED", "SkTypes_DEFINED"} ∧
    "SK_VULKAN" ∈ ({"SK_VULKAN", "GrVkDefines_DEFINED", "SkTypes_DEFINED"} : Finset String) ∧
    "VULKAN_H_" ∉ ({"SK_VULKAN", "GrVkDefines_DEFINED", "SkTypes_DEFINED"} : Finset String) ∧
    sampleEnv {"SkTypes_DEFINED"} none "../../../third_party/vulkan/SkiaVulkan.h"
        {"SK_VULKAN", "GrVkDefines_DEFINED", "SkTypes_DEFINED"}
      = .error (.fileNotFound "../../../third_party/vulkan/SkiaVulkan.h") ∧
    GrVkDefines (sampleEnv {"SkTypes_DEFINED"} none) ⟨{"SK_VULKAN"}, []⟩ =
      .error (.fileNotFound "../../../third_party/vulkan/SkiaVulkan.h") :=
  ⟨by decide, by decide, by decide, by decide, by decide,
    (C6_missing_header PPError (sampleEnv {"SkTypes_DEFINED"} none) ⟨{"SK_VULKAN"}, []⟩
      {"SK_VULKAN", "GrVkDefines_DEFINED", "SkTypes_DEFINED"}
      (.fileNotFound "../../../third_party/vulkan/SkiaVulkan.h")
      (by decide) (by decide) (by decide) (by decide) (by decide)).1⟩

/-! ## C7: the Vulkan API header is already in -/

/-- C7: a successful inclusion pulls in `third_party/vulkan/SkiaVulkan.h` if and
only if `GrVkDefines_DEFINED` was not defined and, at the point of the test
(in the state `SkTypes.h` leaves), `SK_VULKAN` is defined and `VULKAN_H_` is
not; in particular it is not pulled in when `VULKAN_H_` is defined there. -/
theorem C7_vulkan_included_iff (ε : Type) (env : Env ε) (s s1 : PPState)
    (hrun : GrVkDefines env s = .ok s1) :
    ("../../../third_party/vulkan/SkiaVulkan.h" ∈ emitted s s1 ↔
      "GrVkDefines_DEFINED" ∉ s.defined ∧
      ∃ d1, env "SkTypes.h" (insert "GrVkDefines_DEFINED" s.defined) = .ok d1 ∧
        "SK_VULKAN" ∈ d1 ∧ "VULKAN_H_" ∉ d1) ∧
    (∀ d1, env "SkTypes.h" (insert "GrVkDefines_DEFINED" s.defined) = .ok d1 →
      "VULKAN_H_" ∈ d1 → "../../../third_party/vulkan/SkiaVulkan.h" ∉ emitted s s1) := by
  rcases run_ok_cases env s s1 hrun with ⟨hg, rfl⟩ | ⟨hg, d1, hsk, hoff, rfl⟩ |
    ⟨hg, d1, d2, hsk, hflag, hvk, _, rfl⟩
  · rw [emitted_self]
    refine ⟨⟨fun h => absurd h (by simp), fun h => absurd hg h.1⟩, ?_⟩
    intro _ _ _
    simp
  · rw [emitted_append]
    refine ⟨⟨fun h => absurd h (by decide), ?_⟩, ?_⟩
    · rintro ⟨_, d, hd, hon⟩
      rw [hsk] at hd
      cases hd
      exact absurd hon hoff
    · intro _ _ _
      decide
  · rw [emitted_append]
    refine ⟨⟨fun _ => ⟨hg, d1, hsk, hflag, hvk⟩, fun _ => by simp⟩, ?_⟩
    intro d hd hin
    rw [hsk] at hd
    cases hd
    exact absurd hin hvk

/-- Flag on with `VULKAN_H_` already defined: only `SkTypes.h` is pulled in. -/
theorem C7_vulkan_included_iff_witness :
    GrVkDefines (sampleEnv {"SkTypes_DEFINED"} (some {"VULKAN_H_"}))
        ⟨{"SK_VULKAN", "VULKAN_H_"}, []⟩ =
      .ok ⟨{"SK_VULKAN", "VULKAN_H_", "GrVkDefines_DEFINED", "SkTypes_DEFINED"},
           ["SkTypes.h"]⟩ ∧
    sampleEnv {"SkTypes_DEFINED"} (some {"VULKAN_H_"}) "SkTypes.h"
        (insert "GrVkDefines_DEFINED" (⟨{"SK_VULKAN", "VULKAN_H_"}, []⟩ : PPState).defined)
      = .ok {"SK_VULKAN", "VULKAN_H_", "GrVkDefines_DEFINED", "SkTypes_DEFINED"} ∧
    "VULKAN_H_" ∈
      ({"SK_VULKAN", "VULKAN_H_", "GrVkDefines_DEFINED", "SkTypes_DEFINED"} : Finset String) ∧
    "../../../third_party/vulkan/SkiaVulkan.h" ∉
      emitted ⟨{"SK_VULKAN", "VULKAN_H_"}, []⟩
        ⟨{"SK_VULKAN", "VULKAN_H_", "GrVkDefines_DEFINED", "SkTypes_DEFINED"},
         ["SkTypes.h"]⟩ :=
  ⟨by decide, by decide, by decide,
    (C7_vulkan_included_iff PPError (sampleEnv {"SkTypes_DEFINED"} (some {"VULKAN_H_"}))
      ⟨{"SK_VULKAN", "VULKAN_H_"}, []⟩
      ⟨{"SK_VULKAN", "VULKAN_H_", "GrVkDefines_DEFINED", "SkTypes_DEFINED"}, ["SkTypes.h"]⟩
      (by decide)).2
      {"SK_VULKAN", "VULKAN_H_", "GrVkDefines_DEFINED", "SkTypes_DEFINED"}
      (by decide) (by decide)⟩

/-! ## C8: `SkTypes.h` comes first -/

/-- C8: on a first inclusion `SkTypes.h` is processed whatever the flag is (when
it fails the inclusion fails with its error; when the inclusion succeeds the
files pulled in start with `SkTypes.h`), the tests of `SK_VULKAN` and
`VULKAN_H_` look at the names `SkTypes.h` leaves defined, and the files pulled
in are `SkTypes.h` alone or `SkTypes.h` followed by `SkiaVulkan.h`. -/
theorem C8_skTypes_first (ε : Type) (env : Env ε) (s : PPState)
    (hguard : "GrVkDefines_DEFINED" ∉ s.defined) :
    (∀ e, env "SkTypes.h" (insert "GrVkDefines_DEFINED" s.defined) = .error e →
      GrVkDefines env s = .error e) ∧
    (∀ d1, env "SkTypes.h" (insert "GrVkDefines_DEFINED" s.defined) = .ok d1 →
      GrVkDefines env s =
        if "SK_VULKAN" ∈ d1 ∧ "VULKAN_H_" ∉ d1 then
          (env "../../../third_party/vulkan/SkiaVulkan.h" d1).map fun d2 =>
            ⟨d2, s.includes ++ ["SkTypes.h", "../../../third_party/vulkan/SkiaVulkan.h"]⟩
        else .ok ⟨d1, s.includes ++ ["SkTypes.h"]⟩) ∧
    (∀ s1, GrVkDefines env s = .ok s1 →
      emitted s s1 = ["SkTypes.h"] ∨
      emitted s s1 = ["SkTypes.h", "../../../third_party/vulkan/SkiaVulkan.h"]) := by
  refine ⟨fun e hsk => run_skTypes_error env s e hguard hsk, ?_, ?_⟩
  · intro d1 hsk
    by_cases hon : "SK_VULKAN" ∈ d1 ∧ "VULKAN_H_" ∉ d1
    · rw [if_pos hon]
      cases hres : env "../../../third_party/vulkan/SkiaVulkan.h" d1 with
      | error e => exact run_on_error env s d1 e hguard hsk hon.1 hon.2 hres
      | ok d2 => exact run_on_ok env s d1 d2 hguard hsk hon.1 hon.2 hres
    · rw [if_neg hon]
      exact run_off env s d1 hguard hsk hon
  · intro s1 hrun
    rcases run_ok_cases env s s1 hrun with ⟨hg, _⟩ | ⟨_, d1, _, _, rfl⟩ |
      ⟨_, d1, d2, _, _, _, _, rfl⟩
    · exact absurd hg hguard
    · exact Or.inl (emitted_append s d1 _)
    · exact Or.inr (emitted_append s d2 _)

/-- The flag is defined by `SkTypes.h` itself, and decides the outcome. -/
theorem C8_skTypes_first_witness :
    "GrVkDefines_DEFINED" ∉ (⟨∅, []⟩ : PPState).defined ∧
    "SK_VULKAN" ∉ (⟨∅, []⟩ : PPState).defined ∧
    GrVkDefines (sampleEnv {"SK_VULKAN"} (some {"VULKAN_H_"})) ⟨∅, []⟩ =
      .ok ⟨{"GrVkDefines_DEFINED", "SK_VULKAN", "VULKAN_H_"},
           ["SkTypes.h", "../../../third_party/vulkan/SkiaVulkan.h"]⟩ ∧
    (emitted ⟨∅, []⟩ ⟨{"GrVkDefines_DEFINED", "SK_VULKAN", "VULKAN_H_"},
        ["SkTypes.h", "../../../third_party/vulkan/SkiaVulkan.h"]⟩ = ["SkTypes.h"] ∨
     emitted ⟨∅, []⟩ ⟨{"GrVkDefines_DEFINED", "SK_VULKAN", "VULKAN_H_"},
        ["SkTypes.h", "../../../third_party/vulkan/SkiaVulkan.h"]⟩ =
       ["SkTypes.h", "../../../third_party/vulkan/SkiaVulkan.h"]) :=
  ⟨by decide, by decide, by decide,
    (C8_skTypes_first PPError (sampleEnv {"SK_VULKAN"} (some {"VULKAN_H_"})) ⟨∅, []⟩
      (by decide)).2.2
      ⟨{"GrVkDefines_DEFINED", "SK_VULKAN", "VULKAN_H_"},
       ["SkTypes.h", "../../../third_party/vulkan/SkiaVulkan.h"]⟩ (by decide)⟩

end GrVk
